import Mathlib

/-!
Verification development for the conversational-banking backend
(`app/backend/data.py`, `handlers.py`, `main.py`, `nlu.py`, `schemas.py`).

The tabular data layer is embedded shallowly: dataframes become lists of
records, pandas column operations become list operations, and monetary
amounts are modelled as exact rationals (the source stores them as Python
floats; the properties under study are about the dataflow, not IEEE
rounding).  Dates and timestamps are modelled as natural-number day
indices: the source normalizes all dates to timezone-naive midnight
timestamps, so only their total order matters.  Fallible Python code
(raising exceptions) is modelled with `Except`.
-/

deriving instance DecidableEq for Except

namespace Bank

/-- Whether `pat` is a prefix of `s` (character lists). -/
def startsWithChars : List Char → List Char → Bool
  | [], _ => true
  | _ :: _, [] => false
  | p :: ps, c :: cs => p = c && startsWithChars ps cs

/-- Whether `pat` occurs as a contiguous substring of the list. -/
def containsChars (pat : List Char) : List Char → Bool
  | [] => startsWithChars pat []
  | c :: cs => startsWithChars pat (c :: cs) || containsChars pat cs

/-- Literal substring test, modelling the Python `in` operator on
strings. -/
def strContains (s pat : String) : Bool :=
  containsChars pat.toList s.toList

/-- Python truthiness of an optional string (`if x:`): `None` and the
empty string are falsy. -/
def optTruthy : Option String → Bool
  | none => false
  | some s => s ≠ ""

/-- Code-point lexicographic strict comparison of character lists: the
string ordering Python uses when pandas sorts a text column. -/
def charListLT : List Char → List Char → Bool
  | [], [] => false
  | [], _ :: _ => true
  | _ :: _, [] => false
  | c :: cs, d :: ds => if c = d then charListLT cs ds else decide (c < d)

/-- Python string `<`. -/
def strLT (a b : String) : Bool := charListLT a.toList b.toList

/-- Python string `<=`. -/
def strLE (a b : String) : Bool := strLT a b || a == b

/-- Python `str.lower()` restricted to ASCII (all the keyword and
column comparisons in the source are over ASCII text). -/
def strLower (s : String) : String := String.mk (s.toList.map Char.toLower)

/-- Python `str.strip()`: drop leading and trailing whitespace. -/
def strTrim (s : String) : String :=
  String.mk (((s.toList.dropWhile Char.isWhitespace).reverse.dropWhile
    Char.isWhitespace).reverse)

/-! ## Python `Decimal` fragment used by `_normalize_phone` (data.py 32-47)

A finite Python `Decimal` is a sign, a coefficient (its digit string,
with insignificant leading zeros removed by the parser, hence a `Nat`)
and an exponent.  Non-finite inputs (`NaN`, `Infinity`) are treated as
parse failures here; on those inputs `_normalize_phone` returns the
stripped candidate text either way, so the modelled output agrees. -/

structure PyDecimal where
  neg : Bool
  coeff : Nat
  exp : Int
deriving DecidableEq, Repr

/-- Numeric value of a digit character. -/
def digitVal (c : Char) : Nat := c.toNat - '0'.toNat

/-- Fold a digit list into a natural number. -/
def natOfDigits (ds : List Char) : Nat :=
  ds.foldl (fun acc c => 10 * acc + digitVal c) 0

/-- Split a character list into its leading run of digits and the rest. -/
def spanDigits (cs : List Char) : List Char × List Char :=
  (cs.takeWhile Char.isDigit, cs.dropWhile Char.isDigit)

/-- Parse the optional exponent part `[(e|E)[+|-]digits]` of a decimal
numeral; returns the exponent value, or `none` if malformed. -/
def parseExpPart (cs : List Char) : Option Int :=
  match cs with
  | [] => some 0
  | e :: rest =>
    if e = 'e' ∨ e = 'E' then
      match rest with
      | '+' :: ds => if ds ≠ [] ∧ ds.all Char.isDigit then some (natOfDigits ds) else none
      | '-' :: ds => if ds ≠ [] ∧ ds.all Char.isDigit then some (-(natOfDigits ds : Int)) else none
      | ds => if ds ≠ [] ∧ ds.all Char.isDigit then some (natOfDigits ds) else none
    else none

/-- Parse the unsigned body `digits[.digits]` / `.digits` plus exponent
of a decimal numeral into (coefficient, exponent). -/
def parseUnsignedDec (cs : List Char) : Option (Nat × Int) :=
  let (intPart, rest1) := spanDigits cs
  match rest1 with
  | '.' :: rest2 =>
    let (fracPart, rest3) := spanDigits rest2
    if intPart = [] ∧ fracPart = [] then none
    else
      match parseExpPart rest3 with
      | some e => some (natOfDigits (intPart ++ fracPart), e - fracPart.length)
      | none => none
  | _ =>
    if intPart = [] then none
    else
      match parseExpPart rest1 with
      | some e => some (natOfDigits intPart, e)
      | none => none

/-- Parse a finite Python `Decimal` literal (optional sign, digits,
optional fractional part, optional exponent). -/
def pyDecParse (s : String) : Option PyDecimal :=
  match s.toList with
  | '+' :: cs => (parseUnsignedDec cs).map (fun p => ⟨false, p.1, p.2⟩)
  | '-' :: cs => (parseUnsignedDec cs).map (fun p => ⟨true, p.1, p.2⟩)
  | cs => (parseUnsignedDec cs).map (fun p => ⟨false, p.1, p.2⟩)

/-- A decimal equals its rounding to integral iff its fractional part is
zero: exponent non-negative, or the coefficient divisible by the scale. -/
def decIsIntegral (d : PyDecimal) : Bool :=
  if d.exp ≥ 0 then true else d.coeff % (10 ^ (-d.exp).toNat) = 0

/-- Model of `Decimal.to_integral()` (round half even): a decimal with a
non-negative exponent is returned unchanged — the exponent is NOT
rewritten to 0 — otherwise the magnitude is rounded to exponent 0. -/
def decToIntegral (d : PyDecimal) : PyDecimal :=
  if d.exp ≥ 0 then d
  else
    let k := (-d.exp).toNat
    let scale := 10 ^ k
    let q := d.coeff / scale
    let r := d.coeff % scale
    let q' := if 2 * r > scale ∨ (2 * r = scale ∧ q % 2 = 1) then q + 1 else q
    ⟨d.neg, q', 0⟩

/-- Digit string of a natural number (no leading zeros; "0" for zero). -/
def natDigits (n : Nat) : String := toString n

/-- Model of the `Decimal` to-scientific-string conversion (`str` on a
`Decimal`): plain notation when `exp ≤ 0` and the adjusted exponent is
at least `-6`, exponential notation (`dE+n`) otherwise. -/
def decToString (d : PyDecimal) : String :=
  let ds := (natDigits d.coeff).toList
  let n : Int := ds.length
  let adj : Int := d.exp + n - 1
  let body :=
    if d.exp ≤ 0 ∧ adj ≥ -6 then
      if d.exp = 0 then String.mk ds
      else
        let k := (-d.exp).toNat
        if ds.length > k then
          String.mk (ds.take (ds.length - k)) ++ "." ++ String.mk (ds.drop (ds.length - k))
        else
          "0." ++ String.mk (List.replicate (k - ds.length) '0') ++ String.mk ds
    else
      let head := String.mk (ds.take 1)
      let tail := if ds.length > 1 then "." ++ String.mk (ds.drop 1) else ""
      let sign := if adj < 0 then "-" else "+"
      head ++ tail ++ "E" ++ sign ++ toString (if adj < 0 then -adj else adj)
  if d.neg then "-" ++ body else body

/-- A raw pandas cell as seen by `_normalize_phone`: Python `None`, the
float `NaN` that pandas uses for a missing CSV cell, or a string. -/
inductive PyVal
  | pyNone
  | pyNaN
  | pyStr (s : String)
deriving DecidableEq, Repr

/-- Core of `_normalize_phone` after the emptiness check (data.py 39-47):
parse the stripped candidate as a `Decimal`; if it is numerically equal
to its integral rounding, render that rounding with `str`, else return
the candidate. -/
def normalizePhoneCore (candidate : String) : String :=
  match pyDecParse candidate with
  | none => candidate
  | some d => if decIsIntegral d then decToString (decToIntegral d) else candidate

/-- Model of `_normalize_phone` (data.py 32-47).  A missing cell reaches
the function as float `NaN` (not `None`): `str(nan).strip()` is the
non-empty string "nan", `Decimal("nan")` is a quiet NaN which is not
equal to its own integral rounding, so the candidate "nan" is returned. -/
def normalizePhone : PyVal → String
  | PyVal.pyNone => ""
  | PyVal.pyNaN => normalizePhoneCore "nan"
  | PyVal.pyStr s => if strTrim s = "" then "" else normalizePhoneCore (strTrim s)

/-! ## Data model (data.py)

Rows of the three CSV tables after the load/normalization steps of
`DataStore._load_customers`, `_load_products` and `_load_transactions`. -/

/-- A row of the customers table after loading: `customer_id` coerced to
string and used as the index, `phone` normalized, `birthdate` normalized
to a timezone-naive date (`none` models `NaT` from an unparseable date). -/
structure Customer where
  customer_id : String
  name : String
  birthdate : Option Nat
  email : String
  phone : String
  address : String
  segment_code : String
deriving DecidableEq, Repr

/-- A row of the products / products_closed tables (identifier columns
coerced to string). -/
structure Product where
  product_id : String
  customer_id : String
  product_type : String
  product_name : String
  status : String
deriving DecidableEq, Repr

/-- A row of transactions.csv before the derived columns are added.
`amount` is the result of `pd.to_numeric(...).fillna(0.0)`. -/
structure RawTxn where
  transaction_id : String
  product_id : String
  date : Nat
  amount : Rat
  currency : String
  description : Option String
  transaction_type : String
deriving DecidableEq, Repr

/-- A loaded transaction row with the derived columns of
`_load_transactions`: `amount_signed`, the merged `customer_id` (a
string: pandas `astype(str)` renders an unmatched NaN as "nan"),
`normalized_merchant`, and the running `balance_after`. -/
structure Txn where
  transaction_id : String
  product_id : String
  date : Nat
  amount : Rat
  amount_signed : Rat
  currency : String
  description : Option String
  transaction_type : String
  customer_id : String
  normalized_merchant : String
  balance_after : Rat
deriving DecidableEq, Repr

/-- The in-memory snapshot built by `DataStore.from_directory`; the
derived transaction frame and balance map are recomputed from these
tables by the functions below. -/
structure DataStore where
  customers : List Customer
  products : List Product
  products_closed : List Product
  rawTxns : List RawTxn
deriving Repr

/-- Signed amount (data.py 150-155): `+amount` when the transaction type
is Credit (case-insensitively — `str.title()` followed by `.lower()`
reduces to `.lower()`), `-amount` otherwise. -/
def amountSigned (t : RawTxn) : Rat :=
  if strLower t.transaction_type = "credit" then t.amount else -t.amount

/-- Customer id recovered for a transaction by the left merge with the
union of open and closed products deduplicated on (product_id,
customer_id) (data.py 157-166): the first product row carrying this
product id.  Deduplication keeps first occurrences, so the first match
in the undeduplicated concatenation is the same row. -/
def mergedCustomerId (store : DataStore) (pid : String) : Option String :=
  ((store.products ++ store.products_closed).find? (fun p => p.product_id == pid)).map
    (fun p => p.customer_id)

/-- Rendering of a merged cell through `astype(str)` (data.py 167): a
missing value (NaN) becomes the literal string "nan". -/
def pyStrOfOpt : Option String → String
  | none => "nan"
  | some s => s

/-- A transaction row with its derived columns, before sorting and
before the cumulative balance column. -/
def rawToTxn0 (store : DataStore) (t : RawTxn) : Txn :=
  { transaction_id := t.transaction_id
    product_id := t.product_id
    date := t.date
    amount := t.amount
    amount_signed := amountSigned t
    currency := t.currency
    description := t.description
    transaction_type := t.transaction_type
    customer_id := pyStrOfOpt (mergedCustomerId store t.product_id)
    normalized_merchant := strLower (t.description.getD "")
    balance_after := 0 }

/-- The sort key of the ledger ordering (data.py 170). -/
def txnKey (t : Txn) : String × Nat × String :=
  (t.product_id, t.date, t.transaction_id)

/-- Lexicographic comparison of ledger sort keys. -/
def keyLE (x y : String × Nat × String) : Bool :=
  if x.1 = y.1 then
    if x.2.1 = y.2.1 then strLE x.2.2 y.2.2 else x.2.1 < y.2.1
  else strLT x.1 y.1

/-- Ledger ordering (data.py 170): sort by (product_id, date,
transaction_id) ascending. -/
def ledgerLE (a b : Txn) : Bool :=
  keyLE (txnKey a) (txnKey b)

/-- Sum of signed amounts of the rows of one product in a list. -/
def sumSignedFor (l : List Txn) (pid : String) : Rat :=
  ((l.filter (fun t => t.product_id = pid)).map (fun t => t.amount_signed)).sum

/-- Per-product cumulative sum (data.py 171): each row has
`balance_after` is the sum of the signed amounts of the rows of the same
product up to and including it, in frame order.  `pre` carries the rows
already passed. -/
def attachBalances : List Txn → List Txn → List Txn
  | _, [] => []
  | pre, t :: ts =>
    { t with balance_after := sumSignedFor pre t.product_id + t.amount_signed }
      :: attachBalances (pre ++ [t]) ts

/-- Restriction of the cumulative-sum pass to the rows of a single
product: used to reason about `attachBalances` through a filter. -/
def attachWithin (acc : Rat) : List Txn → List Txn
  | [] => []
  | t :: ts =>
    { t with balance_after := acc + t.amount_signed }
      :: attachWithin (acc + t.amount_signed) ts

/-- The sorted transaction frame before the balance column.  pandas
`sort_values` uses an unstable quicksort by default, so any correct
sorting algorithm is an equally faithful model; insertion sort is used
because it evaluates by kernel reduction. -/
def sortedTxns (store : DataStore) : List Txn :=
  List.insertionSort (fun a b => ledgerLE a b = true) (store.rawTxns.map (rawToTxn0 store))

/-- The loaded transaction frame of `DataStore.from_directory`: derived
columns, ledger sort, per-product cumulative balance. -/
def loadTxns (store : DataStore) : List Txn :=
  attachBalances [] (sortedTxns store)

/-- `product_balances` (data.py 68-70) looked up with the default of
`get_balance` (data.py 248-249): sum of the signed amounts of the
transactions of the product, 0 for a product with none. -/
def productBalance (store : DataStore) (pid : String) : Rat :=
  sumSignedFor (loadTxns store) pid

/-- The transactions of one product in ledger (frame) order. -/
def ledgerFor (store : DataStore) (pid : String) : List Txn :=
  (loadTxns store).filter (fun t => t.product_id = pid)

/-! ## Error taxonomy and query operations (data.py 174-311) -/

/-- The exception kinds raised by the data layer: the plain `ValueError`
of `ensure_customer_exists`, and the two `LookupError` subclasses
`CustomerNotFoundError` and `CustomerAmbiguousError` (data.py 24-29). -/
inductive DataErr
  | valueError (msg : String)
  | customerNotFound (msg : String)
  | customerAmbiguous (msg : String)
deriving DecidableEq, Repr

/-- Whether an exception is of the `CustomerNotFoundError` class. -/
def isCustomerNotFoundKind : DataErr → Bool
  | DataErr.customerNotFound _ => true
  | _ => false

/-- Membership of a customer id in the customers index. -/
def hasCustomer (store : DataStore) (cid : String) : Bool :=
  store.customers.any (fun c => c.customer_id == cid)

/-- `ensure_customer_exists` (data.py 174-176): raises a plain
`ValueError` — not `CustomerNotFoundError` — for an unknown id. -/
def ensureCustomerExists (store : DataStore) (cid : String) : Except DataErr Unit :=
  if hasCustomer store cid then Except.ok ()
  else Except.error (DataErr.valueError s!"Customer {cid} not found")

/-- Name normalization used on both sides of the identity match
(data.py 181-185): strip whitespace, lowercase. -/
def normName (s : String) : String := strLower (strTrim s)

/-- The customer rows matching a (name, birthdate) identity probe
(data.py 193-196); a row whose birthdate is `NaT` never matches. -/
def identityMatches (store : DataStore) (name : String) (bd : Nat) : List Customer :=
  store.customers.filter (fun c => normName c.name == normName name && c.birthdate == some bd)

/-- `find_customer_by_identity` (data.py 178-206): no match raises
`CustomerNotFoundError`, more than one raises `CustomerAmbiguousError`,
exactly one returns its customer id. -/
def findCustomerByIdentity (store : DataStore) (name : String) (bd : Nat) :
    Except DataErr String :=
  match identityMatches store name bd with
  | [] => Except.error (DataErr.customerNotFound
      s!"No customer matched name {name} with birthdate {bd}.")
  | [c] => Except.ok c.customer_id
  | _ :: _ :: _ => Except.error (DataErr.customerAmbiguous
      s!"Multiple customers matched name {name} with birthdate {bd}.")

/-- `infer_account_type` (data.py 208-213): first keyword family that
matches the lowercased product type wins, in dict insertion order —
current before savings; no match yields `None`. -/
def inferAccountType (ptype : String) : Option String :=
  if ["current", "checking", "zicht", "lion"].any (fun k => strContains (strLower ptype) k) then
    some "current"
  else if ["saving", "spaar", "orange"].any (fun k => strContains (strLower ptype) k) then
    some "savings"
  else none

/-- A product row with its derived `account_type` column. -/
structure AccountRow extends Product where
  account_type : Option String
deriving DecidableEq, Repr

/-- `list_active_accounts` (data.py 215-227): scope to the customer,
derive `account_type`, drop rows whose status contains "closed"
(case-insensitively), optionally filter to the requested type, drop
unclassifiable rows. -/
def listActiveAccounts (store : DataStore) (cid : String) (atype : Option String) :
    Except DataErr (List AccountRow) := do
  _ ← ensureCustomerExists store cid
  let rows := (store.products.filter (fun p => p.customer_id == cid)).map
    (fun p => AccountRow.mk p (inferAccountType p.product_type))
  let rows := rows.filter (fun r => !(strContains (strLower r.status) "closed"))
  let rows := if optTruthy atype then rows.filter (fun r => r.account_type == atype) else rows
  pure (rows.filter (fun r => r.account_type.isSome))

/-- The column projection returned by `list_all_products`. -/
structure ProductView where
  product_id : String
  product_type : String
  product_name : String
  status : String
deriving DecidableEq, Repr

/-- Deduplication keeping first occurrences (`drop_duplicates`). -/
def dedupFirst [BEq α] (seen : List α) : List α → List α
  | [] => []
  | x :: xs => if seen.contains x then dedupFirst seen xs else x :: dedupFirst (x :: seen) xs

/-- Ordering of `list_all_products`: by (product_type, product_id). -/
def productViewLE (a b : ProductView) : Bool :=
  if a.product_type = b.product_type then strLE a.product_id b.product_id
  else strLT a.product_type b.product_type

/-- `list_all_products` (data.py 229-246): open and closed products of
the customer, projected, deduplicated, sorted by (product_type,
product_id). -/
def listAllProducts (store : DataStore) (cid : String) :
    Except DataErr (List ProductView) := do
  _ ← ensureCustomerExists store cid
  let combined := store.products ++ store.products_closed
  let filtered := combined.filter (fun p => p.customer_id == cid)
  let views := filtered.map
    (fun p => ProductView.mk p.product_id p.product_type p.product_name p.status)
  pure (List.insertionSort (fun a b => productViewLE a b = true) (dedupFirst [] views))

/-- Transactions scoped to a customer (data.py 278). -/
def txnScoped (store : DataStore) (cid : String) : List Txn :=
  (loadTxns store).filter (fun t => t.customer_id == cid)

/-- Optional merchant filter (data.py 279-281): applied only when the
merchant argument is truthy; modelled as the literal substring match
documented in `TransactionsFilterRequest` (schemas.py 85-88) — pandas
`str.contains` actually interprets the pattern as a regular expression,
see the C5 analysis. -/
def txnFilterChain0 (store : DataStore) (cid : String) (merchant : Option String) :
    List Txn :=
  if optTruthy merchant then
    (txnScoped store cid).filter
      (fun t => strContains t.normalized_merchant (strLower (merchant.getD "")))
  else txnScoped store cid

/-- Optional inclusive lower date bound (data.py 282-283). -/
def txnFilterChain1 (store : DataStore) (cid : String) (merchant : Option String)
    (dateFrom : Option Nat) : List Txn :=
  match dateFrom with
  | some d => (txnFilterChain0 store cid merchant).filter (fun (t : Txn) => decide (d ≤ t.date))
  | none => txnFilterChain0 store cid merchant

/-- Optional inclusive upper date bound (data.py 284-285). -/
def txnFilterChain2 (store : DataStore) (cid : String) (merchant : Option String)
    (dateFrom dateTo : Option Nat) : List Txn :=
  match dateTo with
  | some d => (txnFilterChain1 store cid merchant dateFrom).filter
      (fun (t : Txn) => decide (t.date ≤ d))
  | none => txnFilterChain1 store cid merchant dateFrom

/-- Optional minimum absolute amount (data.py 286-287). -/
def txnFilterChain (store : DataStore) (cid : String) (merchant : Option String)
    (dateFrom dateTo : Option Nat) (minAmount : Option Rat) : List Txn :=
  match minAmount with
  | some m => (txnFilterChain2 store cid merchant dateFrom dateTo).filter
      (fun (t : Txn) => decide (m ≤ |t.amount|))
  | none => txnFilterChain2 store cid merchant dateFrom dateTo

/-- `filter_transactions` (data.py 268-291): scope to the customer,
apply the optional filters, sort by date descending, optional head(n). -/
def filterTransactions (store : DataStore) (cid : String) (merchant : Option String)
    (n : Option Nat) (dateFrom dateTo : Option Nat) (minAmount : Option Rat) :
    Except DataErr (List Txn) := do
  _ ← ensureCustomerExists store cid
  let df := List.insertionSort (fun a b => b.date ≤ a.date)
    (txnFilterChain store cid merchant dateFrom dateTo minAmount)
  pure (match n with | some k => df.take k | none => df)

/-- Card keyword set (data.py 21). -/
def cardKeywords : List String := ["card", "visa", "mastercard", "credit", "debit"]

/-- `list_card_products` (data.py 293-299): the products of the customer
whose type contains a card keyword. -/
def listCardProducts (store : DataStore) (cid : String) : Except DataErr (List Product) := do
  _ ← ensureCustomerExists store cid
  pure ((store.products.filter (fun p => p.customer_id == cid)).filter
    (fun p => cardKeywords.any (fun k => strContains (strLower p.product_type) k)))

/-- `get_customer_snapshot` (data.py 301-311): the identity projection
of the customer row; the existence check and the row lookup coincide on
the (unique-keyed) index. -/
def getCustomerSnapshot (store : DataStore) (cid : String) : Except DataErr Customer :=
  match store.customers.find? (fun c => c.customer_id == cid) with
  | some c => Except.ok c
  | none => Except.error (DataErr.valueError s!"Customer {cid} not found")

/-! ## Request handlers (handlers.py) -/

/-- A failure escaping a handler: an `HTTPException` with its status
code, or an uncaught data-layer exception (which FastAPI would surface
as a 500, not as a 404). -/
inductive HandlerErr
  | http (status : Nat) (detail : String)
  | uncaught (e : DataErr)
deriving DecidableEq, Repr

/-- Left-pad with zeros to the given width (`str.zfill` on digits). -/
def zfill (w : Nat) (s : String) : String :=
  if s.length ≥ w then s else String.mk (List.replicate (w - s.length) '0') ++ s

/-- The last `k` characters of a string (`s[-k:]`). -/
def lastChars (k : Nat) (s : String) : String :=
  String.mk (s.toList.drop (s.length - k))

/-- `_fake_iban` (data.py 251-256): keep the digits of the product id
(or "0000000000" when there are none), zero-pad to 10, keep the last 10,
prefix "BE71". -/
def fakeIban (pid : String) : String :=
  let digits := String.mk (pid.toList.filter Char.isDigit)
  let digits := if digits = "" then "0000000000" else digits
  "BE71" ++ lastChars 10 (zfill 10 digits)

/-- Round a rational to the nearest integer, ties to even (Python
`round`). -/
def roundHalfEven (x : Rat) : Int :=
  let f := ⌊x⌋
  if 2 * (x - f) = 1 then (if f % 2 = 0 then f else f + 1) else round x

/-- Python `round(x, 2)`. -/
def round2 (x : Rat) : Rat := (roundHalfEven (100 * x) : Rat) / 100

/-- The account record built by `format_account_payload`
(data.py 258-266). -/
structure AccountPayload where
  product_id : String
  name : String
  account_type : Option String
  iban : String
  currency : String
  balance : Rat
deriving DecidableEq, Repr

/-- `format_account_payload` (data.py 258-266). -/
def formatAccountPayload (store : DataStore) (r : AccountRow) : AccountPayload :=
  { product_id := r.product_id
    name := r.product_name
    account_type := r.account_type
    iban := fakeIban r.product_id
    currency := "EUR"
    balance := round2 (productBalance store r.product_id) }

/-- `handle_balances` (handlers.py 38-51): an empty active-account frame
raises HTTP 404; otherwise the formatted payloads are returned.  An
exception from the data layer propagates uncaught. -/
def handleBalances (store : DataStore) (cid : String) (atype : Option String) :
    Except HandlerErr (String × List AccountPayload) :=
  match listActiveAccounts store cid atype with
  | Except.error e => Except.error (HandlerErr.uncaught e)
  | Except.ok rows =>
    if rows.isEmpty then
      Except.error (HandlerErr.http 404 s!"No active accounts found for customer {cid}")
    else Except.ok (cid, rows.map (formatAccountPayload store))

/-- `handle_customer_lookup` (handlers.py 54-77): `CustomerNotFoundError`
maps to HTTP 404, `CustomerAmbiguousError` to HTTP 409; on success the
customer id and product list are returned. -/
def handleCustomerLookup (store : DataStore) (name : String) (bd : Nat) :
    Except HandlerErr (String × List ProductView) :=
  match findCustomerByIdentity store name bd with
  | Except.error (DataErr.customerNotFound msg) => Except.error (HandlerErr.http 404 msg)
  | Except.error (DataErr.customerAmbiguous msg) => Except.error (HandlerErr.http 409 msg)
  | Except.error e => Except.error (HandlerErr.uncaught e)
  | Except.ok cid =>
    match listAllProducts store cid with
    | Except.ok prods => Except.ok (cid, prods)
    | Except.error e => Except.error (HandlerErr.uncaught e)

/-- The validated field constraints of `TransactionsFilterRequest`
(schemas.py 81-108): `n` in 1..100, `min_amount` non-negative,
`date_to` not earlier than `date_from`. -/
structure TransactionsFilterRequest where
  customer_id : String
  merchant : Option String
  n : Option Nat
  date_from : Option Nat
  date_to : Option Nat
  min_amount : Option Rat
deriving Repr

/-- The pydantic validation constraints on `TransactionsFilterRequest`. -/
def validFilterRequest (r : TransactionsFilterRequest) : Prop :=
  (∀ k, r.n = some k → 1 ≤ k ∧ k ≤ 100) ∧
  (∀ m, r.min_amount = some m → 0 ≤ m) ∧
  (∀ a b, r.date_from = some a → r.date_to = some b → a ≤ b)

/-! ## Speech-to-text endpoint (main.py 76-108, 129-152)

The Google client is a collaborator: it is modelled as a function from
the recognition configuration to either a result list or a raised
exception. -/

/-- The fields of `speech.RecognitionConfig` set by the endpoint. -/
structure SpeechConfig where
  encoding : String
  sampleRateHertz : Option Nat
  languageCode : String
  enableAutomaticPunctuation : Bool
  sttModel : String
deriving DecidableEq, Repr

/-- First attempt: let the API detect the encoding (main.py 84-89). -/
def cfgAuto (lang : String) : SpeechConfig :=
  ⟨"ENCODING_UNSPECIFIED", none, lang, true, "latest_short"⟩

/-- Fallback attempt: assume MP3 at 44.1 kHz (main.py 96-102). -/
def cfgMp3Fallback (lang : String) : SpeechConfig :=
  ⟨"MP3", some 44100, lang, true, "latest_short"⟩

/-- One recognition result: the transcripts of its alternatives. -/
structure RecogResult where
  alternatives : List String
deriving DecidableEq, Repr

/-- Transcript assembly (main.py 105-107): first alternative of each
result having any, joined by spaces, stripped. -/
def joinTranscripts (results : List RecogResult) : String :=
  strTrim (String.intercalate " "
    ((results.filter (fun r => !r.alternatives.isEmpty)).map
      (fun r => r.alternatives.headD "")))

/-- The `/stt` endpoint body (main.py 76-108): try the auto-detect
configuration; on an exception try the MP3 fallback — whose own
exception is NOT caught and propagates to the caller. -/
def sttEndpoint (recognize : SpeechConfig → Except String (List RecogResult))
    (lang : Option String) : Except String String :=
  let language := lang.getD "en-GB"
  match recognize (cfgAuto language) with
  | Except.ok rs => Except.ok (joinTranscripts rs)
  | Except.error _ =>
    match recognize (cfgMp3Fallback language) with
    | Except.ok rs => Except.ok (joinTranscripts rs)
    | Except.error e => Except.error e

/-- A provider that raises on every attempted configuration. -/
def failingProvider : SpeechConfig → Except String (List RecogResult) :=
  fun _ => Except.error "recognition failed"

/-! ## Slot-filling dialogue loop (nlu.py 284-332) -/

/-- One entry of `ChatBot.chat_history`. -/
inductive Turn
  | user (text : String)
  | assistant (text : String)
deriving DecidableEq, Repr

/-- The mutable dialogue state of `ChatBot`: the conversation history
and the `end_convo` flag (false = `FILLING_SLOTS`, true =
`READY_TO_DISPATCH`). -/
structure BotState where
  chat_history : List Turn
  end_convo : Bool
deriving DecidableEq, Repr

/-- The reserved exact completion phrase recognized in a model reply
(nlu.py 321). -/
def completionPhrase : String :=
  "Thank you for your cooperation, I will now proceed with your request"

/-- The body of the streaming loop of `continue_convo` for one model
reply (nlu.py 308-331): append the user utterance to history; if the
reply contains the completion phrase, set `end_convo` and append
nothing further; otherwise append the reply as a model turn. -/
def processChunk (userReply : String) (s : BotState) (chunk : String) : BotState :=
  let s1 : BotState := { s with chat_history := s.chat_history ++ [Turn.user userReply] }
  if strContains chunk completionPhrase then { s1 with end_convo := true }
  else { s1 with chat_history := s1.chat_history ++ [Turn.assistant chunk] }

/-- `continue_convo` (nlu.py 284-332) over the stream of model replies:
fold the per-reply body over the state; the returned reply is the last
chunk of the stream (`None` models the unbound variable on an empty
stream). -/
def continueConvo (s : BotState) (userReply : String) (chunks : List String) :
    BotState × Option String :=
  (chunks.foldl (processChunk userReply) s, chunks.getLast?)

/-! ## Concrete sample snapshot

A small snapshot in the shape of the CSV data (mirroring the scenario of
the specification: one open checking product, one closed savings
product, three checking transactions +100 / -40 / +10, one orphaned
transaction), used to evaluate the theorems at concrete inputs. -/

def sampleJane : Customer :=
  ⟨"C1", "Jane Doe", some 100, "jane@example.com", "123", "1 Main St", "ADULT"⟩

def sampleBob : Customer :=
  ⟨"C2", "Bob Stone", some 200, "bob@example.com", "456", "2 Side St", "ADULT"⟩

def sampleAnn1 : Customer :=
  ⟨"C3", "Ann Lee", some 50, "ann1@example.com", "789", "3 High St", "ADULT"⟩

def sampleAnn2 : Customer :=
  ⟨"C4", "Ann Lee", some 50, "ann2@example.com", "790", "4 High St", "ADULT"⟩

def samplePChk : Product :=
  ⟨"P1", "C1", "Current Account", "Lion Checking", "Active"⟩

def samplePSav : Product :=
  ⟨"P2", "C1", "Savings Account", "Orange Savings", "Closed"⟩

def sampleT1 : RawTxn := ⟨"T1", "P1", 1, 100, "EUR", some "Salary", "Credit"⟩

def sampleT2 : RawTxn := ⟨"T2", "P1", 2, 40, "EUR", some "Shop A", "Debit"⟩

def sampleT3 : RawTxn := ⟨"T3", "P1", 3, 10, "EUR", some "Refund", "Credit"⟩

def sampleT9 : RawTxn := ⟨"T9", "P9", 5, 7, "EUR", some "ghost", "Credit"⟩

def sampleStore : DataStore :=
  ⟨[sampleJane, sampleBob, sampleAnn1, sampleAnn2],
   [samplePChk, samplePSav], [], [sampleT3, sampleT1, sampleT9, sampleT2]⟩

/-- The loaded form of the orphaned transaction `sampleT9`: its product
id matches no product, so the merge leaves customer_id "nan". -/
def orphanLoaded : Txn :=
  ⟨"T9", "P9", 5, 7, 7, "EUR", some "ghost", "Credit", "nan", "ghost", 7⟩

/-- The loaded form of `sampleT2` (running checking balance 60). -/
def t2Loaded : Txn :=
  ⟨"T2", "P1", 2, 40, -40, "EUR", some "Shop A", "Debit", "C1", "shop a", 60⟩

/-- The active-account row produced for the open checking product. -/
def chkRow : AccountRow := ⟨samplePChk, some "current"⟩

/-- The loaded form of `sampleT1` (running checking balance 100). -/
def t1Loaded : Txn :=
  ⟨"T1", "P1", 1, 100, 100, "EUR", some "Salary", "Credit", "C1", "salary", 100⟩

/-- The loaded form of `sampleT3` (running checking balance 70). -/
def t3Loaded : Txn :=
  ⟨"T3", "P1", 3, 10, 10, "EUR", some "Refund", "Credit", "C1", "refund", 70⟩

/-! ## Lemmas about the ledger construction -/

theorem sumSignedFor_nil (p : String) : sumSignedFor [] p = 0 := rfl

theorem sumSignedFor_append (pre : List Txn) (t : Txn) (p : String) :
    sumSignedFor (pre ++ [t]) p
      = sumSignedFor pre p + (if t.product_id = p then t.amount_signed else 0) := by
  simp only [sumSignedFor, List.filter_append, List.map_append, List.sum_append]
  by_cases h : t.product_id = p <;> simp [h]

theorem attachBalances_filter (p : String) :
    ∀ (pre l : List Txn),
      (attachBalances pre l).filter (fun t => t.product_id = p)
        = attachWithin (sumSignedFor pre p) (l.filter (fun t => t.product_id = p))
  | _, [] => by simp [attachBalances, attachWithin]
  | pre, t :: ts => by
    have ih := attachBalances_filter p (pre ++ [t]) ts
    by_cases h : t.product_id = p
    · simp [attachBalances, List.filter_cons, ih, sumSignedFor_append, attachWithin, h]
    · simp [attachBalances, List.filter_cons, ih, sumSignedFor_append, h]

theorem attachBalances_map_key :
    ∀ (pre l : List Txn), (attachBalances pre l).map txnKey = l.map txnKey
  | _, [] => rfl
  | pre, t :: ts => by
    simp [attachBalances, txnKey, attachBalances_map_key (pre ++ [t]) ts]

theorem attachWithin_map_signed (l : List Txn) :
    ∀ acc : Rat,
      (attachWithin acc l).map (fun t => t.amount_signed) = l.map (fun t => t.amount_signed) := by
  induction l with
  | nil => intro acc; rfl
  | cons t ts ih => intro acc; simp [attachWithin, ih]

theorem attachWithin_getLast :
    ∀ (l : List Txn) (acc : Rat) (t : Txn), (attachWithin acc l).getLast? = some t →
      t.balance_after = acc + (l.map (fun u => u.amount_signed)).sum
  | [], _, _ => by simp [attachWithin]
  | [u], acc, t => by
    simp only [attachWithin, List.getLast?_singleton, Option.some.injEq]
    intro h
    simp [← h]
  | u :: v :: vs, acc, t => by
    have ih := attachWithin_getLast (v :: vs) (acc + u.amount_signed) t
    simp only [attachWithin, List.getLast?_cons_cons] at ih ⊢
    intro h
    rw [ih h]
    simp only [List.map_cons, List.sum_cons]
    ring

theorem attachWithin_get_rec :
    ∀ (l : List Txn) (acc : Rat) (i : Nat) (h1 : i + 1 < (attachWithin acc l).length)
      (h2 : i < (attachWithin acc l).length),
      ((attachWithin acc l).get ⟨i + 1, h1⟩).balance_after
        = ((attachWithin acc l).get ⟨i, h2⟩).balance_after
          + ((attachWithin acc l).get ⟨i + 1, h1⟩).amount_signed
  | [], _, i, h1, _ => by simp [attachWithin] at h1
  | [u], _, 0, h1, _ => by simp [attachWithin] at h1
  | [u], _, i + 1, h1, _ => by simp [attachWithin] at h1
  | u :: v :: vs, acc, 0, h1, h2 => rfl
  | u :: rest, acc, i + 1, h1, h2 => by
    have e : attachWithin acc (u :: rest)
        = { u with balance_after := acc + u.amount_signed }
            :: attachWithin (acc + u.amount_signed) rest := rfl
    have hb1 : i + 1 < (attachWithin (acc + u.amount_signed) rest).length := by
      rw [e] at h1; simpa using h1
    have hb2 : i < (attachWithin (acc + u.amount_signed) rest).length := by
      rw [e] at h2; simpa using h2
    have ih := attachWithin_get_rec rest (acc + u.amount_signed) i hb1 hb2
    exact ih

theorem attachWithin_head (acc : Rat) (l : List Txn) :
    ∀ t rest, attachWithin acc l = t :: rest → t.balance_after = acc + t.amount_signed := by
  cases l with
  | nil => intro t rest h; exact absurd h (by simp [attachWithin])
  | cons u ts =>
    intro t rest h
    simp only [attachWithin, List.cons.injEq] at h
    simp [← h.1]

theorem ledgerFor_eq (store : DataStore) (p : String) :
    ledgerFor store p
      = attachWithin 0 ((sortedTxns store).filter (fun t => t.product_id = p)) := by
  have h := attachBalances_filter p [] (sortedTxns store)
  simpa [ledgerFor, loadTxns, sumSignedFor_nil] using h

theorem productBalance_eq_sum_sorted (store : DataStore) (p : String) :
    productBalance store p
      = (((sortedTxns store).filter (fun t => t.product_id = p)).map
          (fun t => t.amount_signed)).sum := by
  show (((loadTxns store).filter (fun t => t.product_id = p)).map
      (fun t => t.amount_signed)).sum = _
  rw [show (loadTxns store).filter (fun t => t.product_id = p) = ledgerFor store p from rfl,
    ledgerFor_eq, attachWithin_map_signed]

theorem productBalance_eq_sum_raw (store : DataStore) (p : String) :
    productBalance store p
      = ((store.rawTxns.filter (fun t => t.product_id = p)).map amountSigned).sum := by
  rw [productBalance_eq_sum_sorted]
  have perm : List.Perm (sortedTxns store) (store.rawTxns.map (rawToTxn0 store)) :=
    List.perm_insertionSort _ _
  have permf := perm.filter (fun t => decide (t.product_id = p))
  rw [(permf.map (fun t => t.amount_signed)).sum_eq]
  rw [List.filter_map]
  simp only [List.map_map]
  rfl

theorem charListLT_trans :
    ∀ (a b c : List Char), charListLT a b → charListLT b c → charListLT a c
  | [], [], _, h1, _ => by simp [charListLT] at h1
  | [], _ :: _, [], _, h2 => by simp [charListLT] at h2
  | [], _ :: _, _ :: _, _, _ => by simp [charListLT]
  | _ :: _, [], _, h1, _ => by simp [charListLT] at h1
  | _ :: _, _ :: _, [], _, h2 => by simp [charListLT] at h2
  | a :: as, b :: bs, c :: cs, h1, h2 => by
    simp only [charListLT] at h1 h2 ⊢
    by_cases e1 : a = b
    · by_cases e2 : b = c
      · rw [if_pos e1] at h1
        rw [if_pos e2] at h2
        rw [if_pos (e1.trans e2)]
        exact charListLT_trans as bs cs h1 h2
      · have e3 : a ≠ c := by rw [e1]; exact e2
        rw [if_neg e2] at h2
        rw [if_neg e3, e1]
        exact h2
    · by_cases e2 : b = c
      · have e3 : a ≠ c := by rw [← e2]; exact e1
        rw [if_neg e1] at h1
        rw [if_neg e3, ← e2]
        exact h1
      · rw [if_neg e1] at h1
        rw [if_neg e2] at h2
        have hac : a < c := lt_trans (of_decide_eq_true h1) (of_decide_eq_true h2)
        rw [if_neg (ne_of_lt hac)]
        exact decide_eq_true hac

theorem charListLT_of_ne :
    ∀ (a b : List Char), a ≠ b → charListLT a b ∨ charListLT b a
  | [], [], h => absurd rfl h
  | [], _ :: _, _ => Or.inl (by simp [charListLT])
  | _ :: _, [], _ => Or.inr (by simp [charListLT])
  | a :: as, b :: bs, h => by
    by_cases e : a = b
    · subst e
      have : as ≠ bs := by intro e2; exact h (by rw [e2])
      rcases charListLT_of_ne as bs this with h' | h'
      · exact Or.inl (by simpa [charListLT] using h')
      · exact Or.inr (by simpa [charListLT] using h')
    · rcases lt_or_gt_of_ne e with h' | h'
      · exact Or.inl (by simp [charListLT, e, h'])
      · exact Or.inr (by simp [charListLT, Ne.symm e, h'])

theorem charListLT_irrefl : ∀ l : List Char, charListLT l l = false
  | [] => rfl
  | c :: cs => by simp [charListLT, charListLT_irrefl cs]

theorem strLT_trans (a b c : String) (h1 : strLT a b) (h2 : strLT b c) :
    strLT a c = true :=
  charListLT_trans _ _ _ h1 h2

theorem strLT_irrefl (a : String) : strLT a a = false :=
  charListLT_irrefl _

theorem strLT_or_of_ne (a b : String) (h : a ≠ b) : strLT a b ∨ strLT b a :=
  charListLT_of_ne _ _ (fun e => h (String.toList_inj.mp e))

theorem strLE_iff (a b : String) : strLE a b = true ↔ strLT a b = true ∨ a = b := by
  simp [strLE, Bool.or_eq_true]

theorem strLE_trans (a b c : String) (h1 : strLE a b) (h2 : strLE b c) :
    strLE a c = true := by
  rw [strLE_iff] at *
  rcases h1 with h1 | rfl
  · rcases h2 with h2 | rfl
    · exact Or.inl (strLT_trans _ _ _ h1 h2)
    · exact Or.inl h1
  · exact h2

theorem strLE_total (a b : String) : strLE a b = true ∨ strLE b a = true := by
  by_cases e : a = b
  · exact Or.inl ((strLE_iff a b).mpr (Or.inr e))
  · rcases strLT_or_of_ne a b e with h | h
    · exact Or.inl ((strLE_iff a b).mpr (Or.inl h))
    · exact Or.inr ((strLE_iff b a).mpr (Or.inl h))

theorem keyLE_iff (x y : String × Nat × String) :
    keyLE x y = true ↔
      (strLT x.1 y.1 = true ∧ x.1 ≠ y.1)
        ∨ (x.1 = y.1 ∧ (x.2.1 < y.2.1 ∨ (x.2.1 = y.2.1 ∧ strLE x.2.2 y.2.2 = true))) := by
  by_cases e1 : x.1 = y.1
  · by_cases e2 : x.2.1 = y.2.1 <;> simp [keyLE, e1, e2]
  · simp [keyLE, e1]

theorem keyLE_trans (x y z : String × Nat × String)
    (h1 : keyLE x y) (h2 : keyLE y z) : keyLE x z = true := by
  rw [keyLE_iff] at *
  rcases h1 with ⟨h1, n1⟩ | ⟨e1, h1⟩
  · rcases h2 with ⟨h2, n2⟩ | ⟨e2, _⟩
    · refine Or.inl ⟨strLT_trans _ _ _ h1 h2, ?_⟩
      intro e
      have hxx : strLT y.1 x.1 = true := e ▸ h2
      have := strLT_trans _ _ _ h1 hxx
      rw [strLT_irrefl] at this
      exact Bool.false_ne_true this
    · exact Or.inl ⟨e2 ▸ h1, e2 ▸ n1⟩
  · rcases h2 with ⟨h2, n2⟩ | ⟨e2, h2⟩
    · exact Or.inl ⟨e1 ▸ h2, e1 ▸ n2⟩
    · refine Or.inr ⟨e1.trans e2, ?_⟩
      rcases h1 with h1 | ⟨d1, h1⟩
      · rcases h2 with h2 | ⟨d2, _⟩
        · exact Or.inl (h1.trans h2)
        · exact Or.inl (d2 ▸ h1)
      · rcases h2 with h2 | ⟨d2, h2⟩
        · exact Or.inl (d1 ▸ h2)
        · exact Or.inr ⟨d1.trans d2, strLE_trans _ _ _ h1 h2⟩

theorem keyLE_total (x y : String × Nat × String) :
    (keyLE x y || keyLE y x) = true := by
  simp only [Bool.or_eq_true, keyLE_iff]
  by_cases e1 : x.1 = y.1
  · rcases lt_trichotomy x.2.1 y.2.1 with d | d | d
    · exact Or.inl (Or.inr ⟨e1, Or.inl d⟩)
    · rcases strLE_total x.2.2 y.2.2 with t | t
      · exact Or.inl (Or.inr ⟨e1, Or.inr ⟨d, t⟩⟩)
      · exact Or.inr (Or.inr ⟨e1.symm, Or.inr ⟨d.symm, t⟩⟩)
    · exact Or.inr (Or.inr ⟨e1.symm, Or.inl d⟩)
  · rcases strLT_or_of_ne x.1 y.1 e1 with h | h
    · exact Or.inl (Or.inl ⟨h, e1⟩)
    · exact Or.inr (Or.inl ⟨h, Ne.symm e1⟩)

theorem ledgerLE_trans (a b c : Txn) (h1 : ledgerLE a b) (h2 : ledgerLE b c) :
    ledgerLE a c = true :=
  keyLE_trans _ _ _ h1 h2

theorem ledgerLE_total (a b : Txn) : (ledgerLE a b || ledgerLE b a) = true :=
  keyLE_total _ _

theorem sortedTxns_pairwise (store : DataStore) :
    (sortedTxns store).Pairwise (fun a b => ledgerLE a b = true) := by
  haveI : IsTotal Txn (fun a b => ledgerLE a b = true) :=
    ⟨fun a b => by simpa using ledgerLE_total a b⟩
  haveI : IsTrans Txn (fun a b => ledgerLE a b = true) :=
    ⟨fun a b c hab hbc => ledgerLE_trans a b c hab hbc⟩
  exact List.sorted_insertionSort _ _

theorem loadTxns_pairwise (store : DataStore) :
    (loadTxns store).Pairwise (fun a b => ledgerLE a b = true) := by
  have hs := sortedTxns_pairwise store
  have hmap : (loadTxns store).map txnKey = (sortedTxns store).map txnKey :=
    attachBalances_map_key [] (sortedTxns store)
  have hs2 : ((sortedTxns store).map txnKey).Pairwise (fun x y => keyLE x y = true) :=
    List.pairwise_map.mpr hs
  have hl2 : ((loadTxns store).map txnKey).Pairwise (fun x y => keyLE x y = true) := by
    rw [hmap]; exact hs2
  exact List.pairwise_map.mp hl2

theorem ledgerFor_pairwise (store : DataStore) (p : String) :
    (ledgerFor store p).Pairwise
      (fun a b => a.date < b.date
        ∨ (a.date = b.date ∧ strLE a.transaction_id b.transaction_id = true)) := by
  have h1 : (ledgerFor store p).Pairwise (fun a b => ledgerLE a b = true) :=
    List.Pairwise.sublist (List.filter_sublist _) (loadTxns_pairwise store)
  refine h1.imp_of_mem ?_
  intro a b ha hb hab
  have hap : a.product_id = p := by
    have := List.mem_filter.mp ha
    simpa using this.2
  have hbp : b.product_id = p := by
    have := List.mem_filter.mp hb
    simpa using this.2
  rw [ledgerLE, keyLE_iff] at hab
  rcases hab with ⟨_, hne⟩ | ⟨_, h⟩
  · exact absurd (show (txnKey a).1 = (txnKey b).1 by simp [txnKey, hap, hbp]) hne
  · exact h


theorem loadTxns_sample_eval :
    loadTxns sampleStore = [t1Loaded, t2Loaded, t3Loaded, orphanLoaded] := by
  simp [loadTxns, sortedTxns, sampleStore, sampleT1, sampleT2, sampleT3, sampleT9,
    rawToTxn0, amountSigned, mergedCustomerId, pyStrOfOpt, samplePChk, samplePSav,
    attachBalances, sumSignedFor, ledgerLE, keyLE, txnKey, strLT, strLE, charListLT,
    t1Loaded, t2Loaded, t3Loaded, orphanLoaded, strLower]
  norm_num

theorem ledgerFor_sample_eval :
    ledgerFor sampleStore "P1" = [t1Loaded, t2Loaded, t3Loaded] := by
  simp [ledgerFor, loadTxns_sample_eval, t1Loaded, t2Loaded, t3Loaded, orphanLoaded]

theorem inferAccountType_range (s : String) :
    inferAccountType s = none ∨ inferAccountType s = some "current"
      ∨ inferAccountType s = some "savings" := by
  unfold inferAccountType
  split
  · exact Or.inr (Or.inl rfl)
  · split
    · exact Or.inr (Or.inr rfl)
    · exact Or.inl rfl

/-! ## Claim theorems -/

/-- C1.  For every product p of the loaded snapshot, `product_balances[p]`
equals the sum of `amount_signed` over the transactions of p; the per-product
ledger is ordered by (date ascending, transaction_id ascending); its last
`balance_after` equals `product_balances[p]`; the first `balance_after`
equals the first signed amount; and
`balance_after[i] = balance_after[i-1] + amount_signed[i]` along that
order. -/
theorem c1_product_balances_ledger (store : DataStore) (p : String) :
    productBalance store p
        = ((store.rawTxns.filter (fun t => t.product_id = p)).map amountSigned).sum
      ∧ (ledgerFor store p).Pairwise
          (fun a b => a.date < b.date
            ∨ (a.date = b.date ∧ strLE a.transaction_id b.transaction_id = true))
      ∧ (∀ t, (ledgerFor store p).getLast? = some t →
          t.balance_after = productBalance store p)
      ∧ (∀ t ts, ledgerFor store p = t :: ts → t.balance_after = t.amount_signed)
      ∧ (∀ (i : Nat) (h1 : i + 1 < (ledgerFor store p).length)
            (h2 : i < (ledgerFor store p).length),
          ((ledgerFor store p).get ⟨i + 1, h1⟩).balance_after
            = ((ledgerFor store p).get ⟨i, h2⟩).balance_after
              + ((ledgerFor store p).get ⟨i + 1, h1⟩).amount_signed) := by
  refine ⟨productBalance_eq_sum_raw store p, ledgerFor_pairwise store p, ?_, ?_, ?_⟩
  · intro t ht
    rw [ledgerFor_eq] at ht
    rw [attachWithin_getLast _ 0 t ht, productBalance_eq_sum_sorted, zero_add]
  · intro t ts hcons
    rw [ledgerFor_eq] at hcons
    rw [attachWithin_head 0 _ t ts hcons, zero_add]
  · intro i h1 h2
    have e := ledgerFor_eq store p
    rw [e] at h1 h2
    have r := attachWithin_get_rec _ 0 i h1 h2
    simpa [← e] using r

/-- Witness for C1 on the sample snapshot: checking balance 70, last
ledger balance 70, first balance equal to the first signed amount, and
the running-balance recurrence at the second row. -/
theorem c1_witness :
    productBalance sampleStore "P1" = 70
      ∧ (ledgerFor sampleStore "P1").getLast?.map (fun t => t.balance_after)
          = some (productBalance sampleStore "P1")
      ∧ (ledgerFor sampleStore "P1").head?.map (fun t => t.balance_after)
          = (ledgerFor sampleStore "P1").head?.map (fun t => t.amount_signed)
      ∧ t2Loaded.balance_after = t1Loaded.balance_after + t2Loaded.amount_signed := by
  have h := c1_product_balances_ledger sampleStore "P1"
  have e := ledgerFor_sample_eval
  have h3 := h.2.2.1 t3Loaded (by rw [e]; rfl)
  have h4 := h.2.2.2.1 t1Loaded [t2Loaded, t3Loaded] e
  have h5 := h.2.2.2.2 0 (by rw [e]; decide) (by rw [e]; decide)
  refine ⟨?_, ?_, ?_, ?_⟩
  · rw [← h3]; rfl
  · rw [e]
    simp only [List.getLast?_cons_cons, List.getLast?_singleton, Option.map_some']
    rw [h3]
  · rw [e]
    simp only [List.head?_cons, Option.map_some']
    rw [h4]
  · simpa [e] using h5

/-- C2.  `find_customer_by_identity` matches on whitespace-trimmed
case-insensitive name equality and normalized-date equality; zero
matches raise `CustomerNotFoundError` (mapped to HTTP 404 by the
handler), more than one raises `CustomerAmbiguousError` (mapped to HTTP
409), and exactly one returns that customer id. -/
theorem c2_find_customer_by_identity (store : DataStore) (name : String) (bd : Nat) :
    (identityMatches store name bd = [] →
        findCustomerByIdentity store name bd
            = Except.error (DataErr.customerNotFound
                s!"No customer matched name {name} with birthdate {bd}.")
          ∧ handleCustomerLookup store name bd
            = Except.error (HandlerErr.http 404
                s!"No customer matched name {name} with birthdate {bd}."))
      ∧ (1 < (identityMatches store name bd).length →
          findCustomerByIdentity store name bd
              = Except.error (DataErr.customerAmbiguous
                  s!"Multiple customers matched name {name} with birthdate {bd}.")
            ∧ handleCustomerLookup store name bd
              = Except.error (HandlerErr.http 409
                  s!"Multiple customers matched name {name} with birthdate {bd}."))
      ∧ (∀ c, identityMatches store name bd = [c] →
          findCustomerByIdentity store name bd = Except.ok c.customer_id) := by
  refine ⟨?_, ?_, ?_⟩
  · intro hm
    have h1 : findCustomerByIdentity store name bd
        = Except.error (DataErr.customerNotFound
            s!"No customer matched name {name} with birthdate {bd}.") := by
      unfold findCustomerByIdentity
      rw [hm]
    exact ⟨h1, by unfold handleCustomerLookup; rw [h1]⟩
  · intro hm
    have h1 : findCustomerByIdentity store name bd
        = Except.error (DataErr.customerAmbiguous
            s!"Multiple customers matched name {name} with birthdate {bd}.") := by
      unfold findCustomerByIdentity
      rcases e : identityMatches store name bd with _ | ⟨c, _ | ⟨d, t⟩⟩
      · rw [e] at hm; simp at hm
      · rw [e] at hm; simp at hm
      · rfl
    exact ⟨h1, by unfold handleCustomerLookup; rw [h1]⟩
  · intro c hm
    unfold findCustomerByIdentity
    rw [hm]

/-- Witness for C2: on the sample snapshot an unknown identity yields
the 404-mapped not-found error, the duplicated "Ann Lee" identity
yields the 409-mapped ambiguous error, and the Jane Doe identity resolves
to her id. -/
theorem c2_witness :
    findCustomerByIdentity sampleStore "Nobody" 1
        = Except.error (DataErr.customerNotFound
            "No customer matched name Nobody with birthdate 1.")
      ∧ handleCustomerLookup sampleStore "Nobody" 1
        = Except.error (HandlerErr.http 404
            "No customer matched name Nobody with birthdate 1.")
      ∧ findCustomerByIdentity sampleStore "Ann Lee" 50
        = Except.error (DataErr.customerAmbiguous
            "Multiple customers matched name Ann Lee with birthdate 50.")
      ∧ handleCustomerLookup sampleStore "Ann Lee" 50
        = Except.error (HandlerErr.http 409
            "Multiple customers matched name Ann Lee with birthdate 50.")
      ∧ findCustomerByIdentity sampleStore " JANE doe " 100 = Except.ok "C1" := by
  have h1 := (c2_find_customer_by_identity sampleStore "Nobody" 1).1 (by decide)
  have h2 := (c2_find_customer_by_identity sampleStore "Ann Lee" 50).2.1 (by decide)
  have h3 := (c2_find_customer_by_identity sampleStore " JANE doe " 100).2.2
    sampleJane (by decide)
  exact ⟨h1.1, h1.2, h2.1, h2.2, h3⟩

/-- C3 counterexample.  On a snapshot with no customers,
`list_active_accounts` for an unknown id fails with a plain
`ValueError`, which is not of the `CustomerNotFoundError` kind — the
claim that customer-scoped operations fail with the CustomerNotFound
error kind is false on the code. -/
theorem c3_counterexample :
    listActiveAccounts (DataStore.mk [] [] [] []) "X" none
        = Except.error (DataErr.valueError "Customer X not found")
      ∧ isCustomerNotFoundKind (DataErr.valueError "Customer X not found") = false := by
  constructor
  · rfl
  · rfl

/-- C3 (amended).  For every customer id absent from the customers
table, each customer-scoped operation fails loudly — but with a plain
`ValueError` carrying the message `Customer {id} not found`, not with
the `CustomerNotFoundError` kind, and no handler maps it to HTTP 404. -/
theorem c3_unknown_customer_value_error (store : DataStore) (cid : String)
    (h : hasCustomer store cid = false) :
    (∀ atype, listActiveAccounts store cid atype
        = Except.error (DataErr.valueError s!"Customer {cid} not found"))
      ∧ listAllProducts store cid
        = Except.error (DataErr.valueError s!"Customer {cid} not found")
      ∧ (∀ merchant n d1 d2 ma, filterTransactions store cid merchant n d1 d2 ma
          = Except.error (DataErr.valueError s!"Customer {cid} not found"))
      ∧ listCardProducts store cid
        = Except.error (DataErr.valueError s!"Customer {cid} not found")
      ∧ getCustomerSnapshot store cid
        = Except.error (DataErr.valueError s!"Customer {cid} not found") := by
  have he : ensureCustomerExists store cid
      = Except.error (DataErr.valueError s!"Customer {cid} not found") := by
    unfold ensureCustomerExists
    rw [h]
    rfl
  have hf : store.customers.find? (fun c => c.customer_id == cid) = none := by
    rw [List.find?_eq_none]
    intro c hc hbeq
    have : store.customers.any (fun c => c.customer_id == cid) = true :=
      List.any_eq_true.mpr ⟨c, hc, hbeq⟩
    rw [show store.customers.any (fun c => c.customer_id == cid) = hasCustomer store cid
      from rfl, h] at this
    exact Bool.false_ne_true this
  refine ⟨?_, ?_, ?_, ?_, ?_⟩
  · intro atype
    unfold listActiveAccounts
    rw [he]
    rfl
  · unfold listAllProducts
    rw [he]
    rfl
  · intro merchant n d1 d2 ma
    unfold filterTransactions
    rw [he]
    rfl
  · unfold listCardProducts
    rw [he]
    rfl
  · unfold getCustomerSnapshot
    rw [hf]

/-- Witness for C3 (amended): the sample snapshot has no customer
"ZZZ"; every customer-scoped operation fails with the ValueError. -/
theorem c3_witness :
    listActiveAccounts sampleStore "ZZZ" none
        = Except.error (DataErr.valueError "Customer ZZZ not found")
      ∧ listAllProducts sampleStore "ZZZ"
        = Except.error (DataErr.valueError "Customer ZZZ not found")
      ∧ filterTransactions sampleStore "ZZZ" none none none none none
        = Except.error (DataErr.valueError "Customer ZZZ not found")
      ∧ listCardProducts sampleStore "ZZZ"
        = Except.error (DataErr.valueError "Customer ZZZ not found")
      ∧ getCustomerSnapshot sampleStore "ZZZ"
        = Except.error (DataErr.valueError "Customer ZZZ not found") := by
  have h := c3_unknown_customer_value_error sampleStore "ZZZ" (by decide)
  exact ⟨h.1 none, h.2.1, h.2.2.1 none none none none none, h.2.2.2.1, h.2.2.2.2⟩

/-- C10.  Whenever `list_active_accounts` succeeds with zero rows (the
customer exists but has no eligible accounts, also after the optional
account-type filter), `handle_balances` fails with HTTP 404 instead of
returning an empty success. -/
theorem c10_balances_empty_404 (store : DataStore) (cid : String) (atype : Option String)
    (h : listActiveAccounts store cid atype = Except.ok []) :
    handleBalances store cid atype
      = Except.error
          (HandlerErr.http 404 s!"No active accounts found for customer {cid}") := by
  unfold handleBalances
  rw [h]
  rfl

/-- Witness for C10: customer C2 exists in the sample snapshot but owns
no products, and a savings-filtered request for Jane also yields zero
rows; both fail with 404. -/
theorem c10_witness :
    handleBalances sampleStore "C2" none
        = Except.error (HandlerErr.http 404 "No active accounts found for customer C2")
      ∧ handleBalances sampleStore "C1" (some "savings")
        = Except.error (HandlerErr.http 404 "No active accounts found for customer C1") := by
  constructor
  · exact c10_balances_empty_404 sampleStore "C2" none (by decide)
  · exact c10_balances_empty_404 sampleStore "C1" (some "savings") (by decide)

/-- C4.  Every row returned by `list_active_accounts` belongs to the
requested customer, has a status without "closed" (case-insensitively),
carries the account type inferred from its product type by the keyword
tables (hence "current" or "savings", never an unclassifiable row), and
matches the requested account type when one is given. -/
theorem c4_list_active_accounts (store : DataStore) (cid : String) (atype : Option String)
    (rows : List AccountRow) (hok : listActiveAccounts store cid atype = Except.ok rows) :
    ∀ r ∈ rows,
      r.customer_id = cid
        ∧ strContains (strLower r.status) "closed" = false
        ∧ r.account_type = inferAccountType r.product_type
        ∧ (r.account_type = some "current" ∨ r.account_type = some "savings")
        ∧ (optTruthy atype = true → r.account_type = atype) := by
  unfold listActiveAccounts at hok
  cases he : ensureCustomerExists store cid with
  | error e => rw [he] at hok; simp [Bind.bind, Except.bind] at hok
  | ok u =>
    rw [he] at hok
    simp only [Bind.bind, Except.bind, pure, Except.pure, Except.ok.injEq] at hok
    subst hok
    intro r hr
    rw [List.mem_filter] at hr
    obtain ⟨hr3, hsome⟩ := hr
    have hr2 : r ∈ (((store.products.filter (fun p => p.customer_id == cid)).map
        (fun p => AccountRow.mk p (inferAccountType p.product_type))).filter
          (fun r => !(strContains (strLower r.status) "closed")))
        ∧ (optTruthy atype = true → r.account_type == atype) := by
      by_cases hat : optTruthy atype = true
      · rw [if_pos hat] at hr3
        rw [List.mem_filter] at hr3
        exact ⟨hr3.1, fun _ => hr3.2⟩
      · rw [if_neg hat] at hr3
        exact ⟨hr3, fun h => absurd h hat⟩
    obtain ⟨hr1, hatype⟩ := hr2
    rw [List.mem_filter] at hr1
    obtain ⟨hr0, hstatus⟩ := hr1
    rw [List.mem_map] at hr0
    obtain ⟨p, hp, hmk⟩ := hr0
    rw [List.mem_filter] at hp
    have hcid : p.customer_id = cid := by simpa using hp.2
    subst hmk
    refine ⟨hcid, ?_, rfl, ?_, ?_⟩
    · simpa using hstatus
    · rcases inferAccountType_range p.product_type with h | h | h
      · rw [show (AccountRow.mk p (inferAccountType p.product_type)).account_type
            = inferAccountType p.product_type from rfl, h] at hsome
        simp at hsome
      · exact Or.inl h
      · exact Or.inr h
    · intro h
      simpa using hatype h

/-- Witness for C4: on the sample snapshot `list_active_accounts` for
Jane returns exactly the open checking row, which satisfies every
guarantee of the claim. -/
theorem c4_witness :
    chkRow.customer_id = "C1"
      ∧ strContains (strLower chkRow.status) "closed" = false
      ∧ chkRow.account_type = inferAccountType chkRow.product_type
      ∧ (chkRow.account_type = some "current" ∨ chkRow.account_type = some "savings")
      ∧ (optTruthy none = true → chkRow.account_type = none) := by
  have h := c4_list_active_accounts sampleStore "C1" none [chkRow] (by decide)
  exact h chkRow (by simp)

/-- C5 (intended substring semantics).  Every row returned by
`filter_transactions` belongs to the customer; when a merchant pattern
is given the normalized merchant of the row contains it (as the literal
substring match documented in the request schema); rows respect the
inclusive date bounds and the minimum absolute amount; the result is
sorted by date descending; and with `n` given (validated to 1..100) at
most `n` rows are returned. -/
theorem c5_filter_transactions (store : DataStore) (req : TransactionsFilterRequest)
    (rows : List Txn) (hvalid : validFilterRequest req)
    (hok : filterTransactions store req.customer_id req.merchant req.n req.date_from
        req.date_to req.min_amount = Except.ok rows) :
    (∀ t ∈ rows,
        t.customer_id = req.customer_id
          ∧ (optTruthy req.merchant = true →
              strContains t.normalized_merchant (strLower (req.merchant.getD "")) = true)
          ∧ (∀ d, req.date_from = some d → d ≤ t.date)
          ∧ (∀ d, req.date_to = some d → t.date ≤ d)
          ∧ (∀ m, req.min_amount = some m → m ≤ |t.amount|))
      ∧ rows.Pairwise (fun a b => b.date ≤ a.date)
      ∧ (∀ k, req.n = some k → rows.length ≤ k) := by
  unfold filterTransactions at hok
  cases he : ensureCustomerExists store req.customer_id with
  | error e => rw [he] at hok; simp [Bind.bind, Except.bind] at hok
  | ok u =>
    rw [he] at hok
    simp only [Bind.bind, Except.bind, pure, Except.pure, Except.ok.injEq] at hok
    subst hok
    refine ⟨?_, ?_, ?_⟩
    · intro t ht
      have htS : t ∈ List.insertionSort (fun a b => b.date ≤ a.date)
          (txnFilterChain store req.customer_id req.merchant req.date_from req.date_to req.min_amount) := by
        rcases hn : req.n with _ | k
        · rw [hn] at ht; exact ht
        · rw [hn] at ht; exact List.mem_of_mem_take ht
      have htE : t ∈ txnFilterChain store req.customer_id req.merchant req.date_from req.date_to req.min_amount := (List.mem_insertionSort _).mp htS
      have hmin : (∀ m, req.min_amount = some m → m ≤ |t.amount|)
          ∧ t ∈ txnFilterChain2 store req.customer_id req.merchant req.date_from req.date_to := by
        unfold txnFilterChain at htE
        rcases hm : req.min_amount with _ | m
        · rw [hm] at htE; exact ⟨fun _ h => Option.noConfusion h, htE⟩
        · rw [hm] at htE
          rw [List.mem_filter] at htE
          refine ⟨fun m2 h2 => ?_, htE.1⟩
          cases h2
          exact of_decide_eq_true htE.2
      have hto : (∀ d, req.date_to = some d → t.date ≤ d)
          ∧ t ∈ txnFilterChain1 store req.customer_id req.merchant req.date_from := by
        have h2 := hmin.2
        unfold txnFilterChain2 at h2
        rcases hm : req.date_to with _ | d
        · rw [hm] at h2; exact ⟨fun _ h => Option.noConfusion h, h2⟩
        · rw [hm] at h2
          rw [List.mem_filter] at h2
          refine ⟨fun d2 hd2 => ?_, h2.1⟩
          cases hd2
          exact of_decide_eq_true h2.2
      have hfrom : (∀ d, req.date_from = some d → d ≤ t.date)
          ∧ t ∈ txnFilterChain0 store req.customer_id req.merchant := by
        have h2 := hto.2
        unfold txnFilterChain1 at h2
        rcases hm : req.date_from with _ | d
        · rw [hm] at h2; exact ⟨fun _ h => Option.noConfusion h, h2⟩
        · rw [hm] at h2
          rw [List.mem_filter] at h2
          refine ⟨fun d2 hd2 => ?_, h2.1⟩
          cases hd2
          exact of_decide_eq_true h2.2
      have hmerch : (optTruthy req.merchant = true →
            strContains t.normalized_merchant (strLower (req.merchant.getD "")) = true)
          ∧ t ∈ txnScoped store req.customer_id := by
        have h2 := hfrom.2
        unfold txnFilterChain0 at h2
        by_cases hmt : optTruthy req.merchant = true
        · rw [if_pos hmt] at h2
          rw [List.mem_filter] at h2
          exact ⟨fun _ => h2.2, h2.1⟩
        · rw [if_neg hmt] at h2
          exact ⟨fun h => absurd h hmt, h2⟩
      have hcid : t.customer_id = req.customer_id := by
        have h2 := hmerch.2
        unfold txnScoped at h2
        rw [List.mem_filter] at h2
        simpa using h2.2
      exact ⟨hcid, hmerch.1, hfrom.1, hto.1, hmin.1⟩
    · have hs : (List.insertionSort (fun a b => b.date ≤ a.date)
          (txnFilterChain store req.customer_id req.merchant req.date_from req.date_to req.min_amount)).Pairwise (fun a b => b.date ≤ a.date) := by
        haveI : IsTotal Txn (fun a b => b.date ≤ a.date) :=
          ⟨fun a b => (le_total b.date a.date).imp id id⟩
        haveI : IsTrans Txn (fun a b => b.date ≤ a.date) :=
          ⟨fun _ _ _ hab hbc => le_trans hbc hab⟩
        exact List.sorted_insertionSort _ _
      rcases hn : req.n with _ | k
      · exact hs
      · exact List.Pairwise.sublist (List.take_sublist _ _) hs
    · intro k hk
      rw [hk]
      exact le_trans (List.length_take _ _ ▸ min_le_left _ _) le_rfl


/-- Witness for C5: a fully-filtered request (merchant "shop", n = 1,
dates 1..3, minimum amount 5) on the sample snapshot returns exactly
the Shop A debit row, and every guarantee holds for it. -/
theorem c5_witness :
    t2Loaded.customer_id = "C1"
      ∧ strContains t2Loaded.normalized_merchant (strLower "shop") = true
      ∧ 1 ≤ t2Loaded.date
      ∧ t2Loaded.date ≤ 3
      ∧ (5 : Rat) ≤ |t2Loaded.amount|
      ∧ ([t2Loaded] : List Txn).Pairwise (fun a b => b.date ≤ a.date)
      ∧ ([t2Loaded] : List Txn).length ≤ 1 := by
  have hvalid : validFilterRequest ⟨"C1", some "shop", some 1, some 1, some 3, some 5⟩ := by
    refine ⟨?_, ?_, ?_⟩
    · intro k hk
      cases hk
      exact ⟨le_refl 1, by norm_num⟩
    · intro m hm
      cases hm
      norm_num
    · intro a b ha hb
      cases ha
      cases hb
      norm_num
  have hok : filterTransactions sampleStore "C1" (some "shop") (some 1) (some 1) (some 3)
      (some 5) = Except.ok [t2Loaded] := by
    unfold filterTransactions txnFilterChain txnFilterChain2 txnFilterChain1 txnFilterChain0
      txnScoped
    rw [loadTxns_sample_eval]
    norm_num [ensureCustomerExists, hasCustomer, sampleStore, sampleJane, sampleBob,
      sampleAnn1, sampleAnn2, Bind.bind, Except.bind, optTruthy, strContains, containsChars,
      startsWithChars, strLower, t1Loaded, t2Loaded, t3Loaded, orphanLoaded]
    rfl
  have h := c5_filter_transactions sampleStore
    ⟨"C1", some "shop", some 1, some 1, some 3, some 5⟩ [t2Loaded] hvalid hok
  have hm := h.1 t2Loaded (by simp)
  exact ⟨hm.1, hm.2.1 (by decide), hm.2.2.1 1 rfl, hm.2.2.2.1 3 rfl, hm.2.2.2.2 5 rfl,
    h.2.1, h.2.2 1 rfl⟩

/-- C6 counterexample.  A provider that raises on both attempted
configurations makes the `/stt` endpoint propagate the second
exception: the transcript is NOT the empty string, refuting the claim
that no exception surfaces on total provider failure. -/
theorem c6_counterexample :
    sttEndpoint failingProvider (some "en-GB") = Except.error "recognition failed"
      ∧ Except.error "recognition failed" ≠ (Except.ok "" : Except String String) := by
  constructor
  · rfl
  · intro h
    exact Except.noConfusion h

/-- C6 (amended).  The `/stt` endpoint tries the auto-detect
configuration and, on an exception, the MP3 fallback; if the fallback
raises as well, that exception propagates to the caller — no
empty-string transcript is substituted. -/
theorem c6_stt_second_failure_propagates
    (recognize : SpeechConfig → Except String (List RecogResult))
    (lang : Option String) (e1 e2 : String)
    (h1 : recognize (cfgAuto (lang.getD "en-GB")) = Except.error e1)
    (h2 : recognize (cfgMp3Fallback (lang.getD "en-GB")) = Except.error e2) :
    sttEndpoint recognize lang = Except.error e2 := by
  simp only [sttEndpoint, h1, h2]

/-- Witness for C6 (amended) at the always-failing provider. -/
theorem c6_witness :
    sttEndpoint failingProvider none = Except.error "recognition failed" :=
  c6_stt_second_failure_propagates failingProvider none
    "recognition failed" "recognition failed" rfl rfl

theorem chain_sub_scoped (store : DataStore) (cid : String) (merchant : Option String)
    (d1 d2 : Option Nat) (ma : Option Rat) :
    ∀ t, t ∈ txnFilterChain store cid merchant d1 d2 ma → t ∈ txnScoped store cid := by
  intro t h
  have h2 : t ∈ txnFilterChain2 store cid merchant d1 d2 := by
    unfold txnFilterChain at h
    rcases ma with _ | m
    · exact h
    · exact (List.mem_filter.mp h).1
  have h1 : t ∈ txnFilterChain1 store cid merchant d1 := by
    unfold txnFilterChain2 at h2
    rcases d2 with _ | b
    · exact h2
    · exact (List.mem_filter.mp h2).1
  have h0 : t ∈ txnFilterChain0 store cid merchant := by
    unfold txnFilterChain1 at h1
    rcases d1 with _ | a
    · exact h1
    · exact (List.mem_filter.mp h1).1
  unfold txnFilterChain0 at h0
  by_cases hm : optTruthy merchant = true
  · rw [if_pos hm] at h0
    exact (List.mem_filter.mp h0).1
  · rw [if_neg hm] at h0
    exact h0

theorem attachBalances_mem :
    ∀ (pre l : List Txn) (t : Txn), t ∈ attachBalances pre l →
      ∃ u ∈ l, ∃ b : Rat, t = { u with balance_after := b }
  | _, [], t => by simp [attachBalances]
  | pre, u :: us, t => by
    intro h
    simp only [attachBalances, List.mem_cons] at h
    rcases h with h | h
    · exact ⟨u, List.mem_cons_self _ _, _, h⟩
    · obtain ⟨v, hv, b, hb⟩ := attachBalances_mem (pre ++ [u]) us t h
      exact ⟨v, List.mem_cons_of_mem _ hv, b, hb⟩

theorem loadTxns_customer_id_nan (store : DataStore) (t : Txn)
    (hmem : t ∈ loadTxns store)
    (horph : (store.products ++ store.products_closed).find?
        (fun p => p.product_id == t.product_id) = none) :
    t.customer_id = "nan" := by
  obtain ⟨u, hu, b, hb⟩ := attachBalances_mem [] _ t hmem
  have hu2 : u ∈ store.rawTxns.map (rawToTxn0 store) := (List.mem_insertionSort _).mp hu
  obtain ⟨r, _, hr⟩ := List.mem_map.mp hu2
  subst hr
  subst hb
  have h0 : (store.products ++ store.products_closed).find?
      (fun p => p.product_id == r.product_id) = none := horph
  show pyStrOfOpt (mergedCustomerId store r.product_id) = "nan"
  unfold mergedCustomerId
  rw [h0]
  rfl

/-- C7 counterexample.  The missing customer id of the merge is stringified
by `astype(str)`: the orphaned sample transaction is loaded with the
literal customer id "nan" — not a null — and on a snapshot whose
customers table contains the literal id "nan" the customer-scoped
transaction query RETURNS the orphaned transaction. -/
theorem c7_counterexample :
    orphanLoaded.customer_id = "nan"
      ∧ (loadTxns (DataStore.mk
            [Customer.mk "nan" "Nan Customer" (some 1) "" "" "" "ADULT"] [] [] [sampleT9]))
          = [orphanLoaded]
      ∧ filterTransactions (DataStore.mk
            [Customer.mk "nan" "Nan Customer" (some 1) "" "" "" "ADULT"] [] [] [sampleT9])
          "nan" none none none none none = Except.ok [orphanLoaded] := by
  refine ⟨rfl, ?_, ?_⟩
  · simp [loadTxns, sortedTxns, rawToTxn0, amountSigned, mergedCustomerId, pyStrOfOpt,
      attachBalances, sumSignedFor, sampleT9, orphanLoaded, strLower]
    try norm_num
  · have he : loadTxns (DataStore.mk
        [Customer.mk "nan" "Nan Customer" (some 1) "" "" "" "ADULT"] [] [] [sampleT9])
        = [orphanLoaded] := by
      simp [loadTxns, sortedTxns, rawToTxn0, amountSigned, mergedCustomerId, pyStrOfOpt,
        attachBalances, sumSignedFor, sampleT9, orphanLoaded, strLower]
      try norm_num
    unfold filterTransactions txnFilterChain txnFilterChain2 txnFilterChain1 txnFilterChain0
      txnScoped
    rw [he]
    norm_num [ensureCustomerExists, hasCustomer, Bind.bind, Except.bind, optTruthy,
      orphanLoaded]
    rfl

/-- C7 (amended).  A loaded transaction whose product id matches no row
of the deduplicated union of open and closed products carries the
sentinel string "nan" as customer id (the merge null stringified by
`astype(str)`), and customer-scoped transaction queries exclude it for
every customer id other than the literal string "nan". -/
theorem c7_orphan_transactions (store : DataStore) (t : Txn)
    (hmem : t ∈ loadTxns store)
    (horph : (store.products ++ store.products_closed).find?
        (fun p => p.product_id == t.product_id) = none) :
    t.customer_id = "nan"
      ∧ ∀ cid merchant n d1 d2 ma rows, cid ≠ "nan" →
          filterTransactions store cid merchant n d1 d2 ma = Except.ok rows →
          t ∉ rows := by
  have hnan := loadTxns_customer_id_nan store t hmem horph
  refine ⟨hnan, ?_⟩
  intro cid merchant n d1 d2 ma rows hne hok htmem
  unfold filterTransactions at hok
  cases he : ensureCustomerExists store cid with
  | error e => rw [he] at hok; simp [Bind.bind, Except.bind] at hok
  | ok u =>
    rw [he] at hok
    simp only [Bind.bind, Except.bind, pure, Except.pure, Except.ok.injEq] at hok
    subst hok
    have htS : t ∈ List.insertionSort (fun a b => b.date ≤ a.date)
        (txnFilterChain store cid merchant d1 d2 ma) := by
      rcases n with _ | k
      · exact htmem
      · exact List.mem_of_mem_take htmem
    have htC := (List.mem_insertionSort _).mp htS
    have htScoped := chain_sub_scoped store cid merchant d1 d2 ma t htC
    unfold txnScoped at htScoped
    have hc : t.customer_id = cid := by
      simpa using (List.mem_filter.mp htScoped).2
    exact hne (by rw [← hc, hnan])

/-- Witness for C7 (amended): the orphaned sample transaction is loaded
with customer id "nan" and is absent from the transaction query result
of customer C1. -/
theorem c7_witness :
    orphanLoaded.customer_id = "nan"
      ∧ orphanLoaded ∉ ([t3Loaded, t2Loaded, t1Loaded] : List Txn) := by
  have hmem : orphanLoaded ∈ loadTxns sampleStore := by
    rw [loadTxns_sample_eval]
    simp
  have horph : (sampleStore.products ++ sampleStore.products_closed).find?
      (fun p => p.product_id == orphanLoaded.product_id) = none := by decide
  have hok : filterTransactions sampleStore "C1" none none none none none
      = Except.ok [t3Loaded, t2Loaded, t1Loaded] := by
    unfold filterTransactions txnFilterChain txnFilterChain2 txnFilterChain1 txnFilterChain0
      txnScoped
    rw [loadTxns_sample_eval]
    norm_num [ensureCustomerExists, hasCustomer, sampleStore, sampleJane, sampleBob,
      sampleAnn1, sampleAnn2, Bind.bind, Except.bind, optTruthy, t1Loaded, t2Loaded,
      t3Loaded, orphanLoaded]
    rfl
  have h := c7_orphan_transactions sampleStore orphanLoaded hmem horph
  exact ⟨h.1, h.2 "C1" none none none none none [t3Loaded, t2Loaded, t1Loaded]
    (by decide) hok⟩


/-- C8 (code bug).  `_normalize_phone` promises (docstring and claim)
to render scientific-notation numerals as integer digit strings, but
`Decimal.to_integral()` keeps a positive exponent unchanged and `str`
then re-renders scientific notation: "4.75E+8" comes back unchanged
instead of "475000000".  Missing cells (pandas NaN) come back as the
string "nan", not the empty string; unparseable text comes back
whitespace-stripped, not unchanged.  Plain decimal-with-zero-fraction
inputs are rendered as digit strings as claimed. -/
theorem c8_normalize_phone_eval :
    normalizePhone (PyVal.pyStr "4.75E+8") = "4.75E+8"
      ∧ "4.75E+8" ≠ "475000000"
      ∧ normalizePhone PyVal.pyNaN = "nan"
      ∧ normalizePhone (PyVal.pyStr " 12a ") = "12a"
      ∧ normalizePhone (PyVal.pyStr "123.0") = "123"
      ∧ normalizePhone (PyVal.pyStr "0032") = "32" := by
  refine ⟨by decide, by decide, by decide, by decide, by decide, by decide⟩

/-- C9.  One slot-filling turn of `continue_convo` (a stream consisting
of one model reply), started in the `FILLING_SLOTS` state: the user
utterance is appended to the conversation history; a reply containing
the reserved completion phrase flips `end_convo` (the
`READY_TO_DISPATCH` state) and is itself not appended; any other reply
is appended as a model turn and the state stays `FILLING_SLOTS`. -/
theorem c9_continue_convo (s : BotState) (u r : String) (h : s.end_convo = false) :
    continueConvo s u [r]
      = (BotState.mk
          (s.chat_history ++ [Turn.user u]
            ++ (if strContains r completionPhrase then [] else [Turn.assistant r]))
          (strContains r completionPhrase), some r) := by
  unfold continueConvo processChunk
  by_cases hc : strContains r completionPhrase = true
  · simp [hc, h]
  · simp only [Bool.not_eq_true] at hc
    simp [hc, h]

/-- Witness for C9: a completion-phrase reply flips the state to
ready-to-dispatch without being recorded, an ordinary reply is recorded
and the state stays filling-slots. -/
theorem c9_witness :
    continueConvo (BotState.mk [] false) "my name is Jane Doe" [completionPhrase]
        = (BotState.mk [Turn.user "my name is Jane Doe"] true, some completionPhrase)
      ∧ continueConvo (BotState.mk [] false) "hello" ["What is your name?"]
        = (BotState.mk [Turn.user "hello", Turn.assistant "What is your name?"] false,
            some "What is your name?") := by
  constructor
  · have h := c9_continue_convo (BotState.mk [] false) "my name is Jane Doe"
      completionPhrase rfl
    rw [h]
    decide
  · have h := c9_continue_convo (BotState.mk [] false) "hello" "What is your name?" rfl
    rw [h]
    decide

end Bank
